import Mathlib

/-!
Verification of the realtime market-data fan-out core of the
`stock_backend` repository, as a shallow embedding in Lean 4.

The repository contains two gateway variants:

* `expressjs-server/src/core/services/websocket.service.ts`
  (`WebSocketService`): rooms are named `symbol:<payload>`, the Redis
  listener emits event `"trade"` to the per-symbol room and then to all
  clients.
* the gateway-service `SocketService` (`src/unnamed/part_007`): rooms are
  named by the bare symbol, payloads may be a bare string or `{symbol}`,
  and a `RedisWebSocketBridge` plus an optional mock generator
  (`src/unnamed/part_006`) produce the data events.

Pure functions of those files are translated here directly; the per-socket
room set of Socket.IO (`socket.join` / `socket.leave`) is modelled as a
duplicate-free list with set-insert and erase, which is the documented
Socket.IO semantics (joining an already-joined room and leaving a
non-joined room are no-ops).
-/

namespace StockBackend

/-! ## Per-connection room membership (Socket.IO `join` / `leave`) -/

/-- Socket.IO room join: set-insert into the connection's room set. -/
def joinRoom (rooms : List String) (r : String) : List String :=
  rooms.insert r

/-- Socket.IO room leave: erase from the connection's room set. -/
def leaveRoom (rooms : List String) (r : String) : List String :=
  rooms.erase r

/-- A `subscribe` / `unsubscribe` payload as delivered by Socket.IO:
either a bare string or a JSON object with an optional `symbol` field. -/
inductive SubPayload where
  | str (s : String)
  | obj (symbol : Option String)
  deriving DecidableEq

/-- `WebSocketService` (`websocket.service.ts`) computes the room name by
the template literal `` `symbol:<payload>` ``.  A string payload is spliced
verbatim (no upper-casing); an object payload is converted by the
JavaScript default object-to-string conversion. -/
def wsRoomOf : SubPayload → String
  | .str s => "symbol:" ++ s
  | .obj _ => "symbol:[object Object]"

/-- `WebSocketService` `subscribe` handler: `socket.join(\x7bsymbol:${symbol}\x7d)`. -/
def wsSubscribe (rooms : List String) (p : SubPayload) : List String :=
  joinRoom rooms (wsRoomOf p)

/-- `WebSocketService` `unsubscribe` handler: `socket.leave(...)`. -/
def wsUnsubscribe (rooms : List String) (p : SubPayload) : List String :=
  leaveRoom rooms (wsRoomOf p)

/-- `SocketService.setupConnection` (`part_007`) extracts the symbol:
`typeof payload === "string" ? payload : payload?.symbol ?? undefined`. -/
def gsSymbolOf : SubPayload → Option String
  | .str s => some s
  | .obj o => o

/-- JavaScript truthiness of an optional string: `undefined` and the empty
string are falsy. -/
def truthyStr : Option String → Bool
  | none => false
  | some s => s ≠ ""

/-- `SocketService` `subscribe` handler: `if (symbol) socket.join(symbol)` —
the room is the bare symbol, joined only when the symbol is truthy. -/
def gsSubscribe (rooms : List String) (p : SubPayload) : List String :=
  match gsSymbolOf p with
  | some s => if s = "" then rooms else joinRoom rooms s
  | none => rooms

/-- `SocketService` `unsubscribe` handler: `if (symbol) socket.leave(symbol)`. -/
def gsUnsubscribe (rooms : List String) (p : SubPayload) : List String :=
  match gsSymbolOf p with
  | some s => if s = "" then rooms else leaveRoom rooms s
  | none => rooms

/-! ## Gateway broadcast of Redis trade messages (`startRedisListener`) -/

/-- The trade payload as received from the Redis channel; only the
`symbol` field is inspected by the gateway, the rest is forwarded opaquely
and is abstracted by `rest`. -/
structure TradeMsg where
  symbol : Option String
  rest : Nat := 0
  deriving DecidableEq

/-- A frame payload pushed to a WebSocket client. -/
inductive WsData where
  | conn (message : String) (timestamp : String)
  | trade (msg : TradeMsg)
  deriving DecidableEq

/-- A frame pushed to a WebSocket client: Socket.IO event name plus payload. -/
structure Frame where
  event : String
  data : WsData
  deriving DecidableEq

/-- The connected gateway clients: socket id paired with the socket's room
set. -/
abbrev Conns := List (Nat × List String)

/-- `WebSocketService.startRedisListener` callback: when the payload's
`symbol` is truthy, emit event `"trade"` to room `symbol:<symbol>` and then
emit the same event to every connected client.  Returns the delivered
(client, frame) pairs in emission order. -/
def deliverTrade (st : Conns) (msg : TradeMsg) : List (Nat × Frame) :=
  match msg.symbol with
  | none => []
  | some s =>
    if s = "" then []
    else
      ((st.filter (fun p => ("symbol:" ++ s) ∈ p.2)).map
          (fun p => (p.1, Frame.mk "trade" (WsData.trade msg)))) ++
        st.map (fun p => (p.1, Frame.mk "trade" (WsData.trade msg)))

/-! ## Mock realtime generator (`part_006`, `mock-realtime.ts`)

Randomness is made explicit: every `Math.random()` call of the source
becomes a rational parameter drawn from `[0,1)`.  `Number(x.toFixed(2))`
on the positive prices produced here is rounding half-up to two decimals,
modelled by `round2`. -/

/-- DEFAULT_TICKERS from `tickers.constants.ts`; `SYMBOLS` in
`mock-realtime.ts` is a copy of this list. -/
def DEFAULT_TICKERS : List String :=
  ["AAPL", "MSFT", "GOOGL", "AMZN", "NVDA", "META", "TSLA", "BRK-B",
   "JNJ", "JPM", "IBM", "V", "WMT", "PG", "MA", "XOM", "UNH", "HD",
   "COST", "BAC", "KO", "PEP", "DIS", "CSCO", "ABT", "AVGO", "ORCL",
   "TSM", "CRM", "NFLX"]

/-- `randomSymbol()`: `SYMBOLS[Math.floor(Math.random() * SYMBOLS.length)]`. -/
def randomSymbol (r : ℚ) : String :=
  DEFAULT_TICKERS.getD (⌊r * DEFAULT_TICKERS.length⌋).toNat ""

/-- Rounding to two decimals, `Number(x.toFixed(2))` for positive `x`:
round half-up at the second decimal. -/
def round2 (q : ℚ) : ℚ :=
  (⌊q * 100 + 1 / 2⌋ : ℚ) / 100

/-- A mock bar record as built by `createMockBar`. -/
structure MockBar where
  symbol : String
  open_ : ℚ
  high : ℚ
  low : ℚ
  close : ℚ
  volume : ℤ
  timestamp : Nat
  type : String
  deriving DecidableEq

/-- `createMockBar(symbol)` with the five price draws and the volume draw
made explicit (each is a `Math.random()` result in `[0,1)`) and the clock
value `now` (`Date.now()`). -/
def createMockBar (symbol : String) (r1 r2 r3 r4 r5 rVol : ℚ) (now : Nat) :
    MockBar :=
  let base := 150 + r1 * 10
  let o := base + (r2 - 1 / 2) * 2
  let c := base + (r3 - 1 / 2) * 3
  let h := max o c + r4 * (3 / 2)
  let l := min o c - r5 * (3 / 2)
  { symbol := symbol.toUpper
    open_ := round2 o
    high := round2 h
    low := round2 l
    close := round2 c
    volume := 500000 + ⌊rVol * 1500000⌋
    timestamp := now
    type := "bar" }

/-- A mock trade record as built by `createMockTrade`. -/
structure MockTrade where
  symbol : String
  price : ℚ
  size : ℤ
  timestamp : Nat
  type : String
  deriving DecidableEq

/-- `createMockTrade(symbol)` with the price draw and the size draw made
explicit. -/
def createMockTrade (symbol : String) (r1 rSize : ℚ) (now : Nat) :
    MockTrade :=
  let base := 150 + r1 * 10
  { symbol := symbol.toUpper
    price := round2 base
    size := 100 + ⌊rSize * 1000⌋
    timestamp := now
    type := "trade" }

/-- One tick of the bar interval in `startMockRealtime`:
`io.emit("bar_update", createMockBar(randomSymbol()))`.  Returns the
emitted (event name, payload) pair. -/
def mockBarEmission (rSym r1 r2 r3 r4 r5 rVol : ℚ) (now : Nat) :
    String × MockBar :=
  ("bar_update", createMockBar (randomSymbol rSym) r1 r2 r3 r4 r5 rVol now)

/-- One tick of the trade interval in `startMockRealtime`:
`io.emit("trade_update", createMockTrade(randomSymbol()))`. -/
def mockTradeEmission (rSym r1 rSize : ℚ) (now : Nat) : String × MockTrade :=
  ("trade_update", createMockTrade (randomSymbol rSym) r1 rSize now)

/-! ## ISO-8601 timestamps (`new Date().toISOString()`)

Models the ECMAScript `Date.prototype.toISOString` builtin on a
non-negative epoch-millisecond clock: Gregorian calendar conversion
(Howard Hinnant's civil-from-days algorithm, as specified for
`MakeDay`/`MonthFromTime` in ECMA-262) and zero-padded fixed-width
rendering `YYYY-MM-DDTHH:mm:ss.sssZ`. -/

/-- Zero-padded two-digit decimal rendering (`String(n).padStart(2, "0")`
for `n < 100`). -/
def pad2 (n : Nat) : List Char :=
  [Nat.digitChar (n / 10 % 10), Nat.digitChar (n % 10)]

/-- Zero-padded three-digit decimal rendering (milliseconds field). -/
def pad3 (n : Nat) : List Char :=
  [Nat.digitChar (n / 100 % 10), Nat.digitChar (n / 10 % 10),
   Nat.digitChar (n % 10)]

/-- Zero-padded four-digit decimal rendering (year field). -/
def pad4 (n : Nat) : List Char :=
  [Nat.digitChar (n / 1000 % 10), Nat.digitChar (n / 100 % 10),
   Nat.digitChar (n / 10 % 10), Nat.digitChar (n % 10)]

/-- Gregorian (year, month, day) of a day count since 1970-01-01. -/
def civilFromDays (days : Nat) : Nat × Nat × Nat :=
  let z := days + 719468
  let era := z / 146097
  let doe := z % 146097
  let yoe := (doe - doe / 1460 + doe / 36524 - doe / 146096) / 365
  let y := yoe + era * 400
  let doy := doe - (365 * yoe + yoe / 4 - yoe / 100)
  let mp := (5 * doy + 2) / 153
  let d := doy - (153 * mp + 2) / 5 + 1
  let m := if mp < 10 then mp + 3 else mp - 9
  (if m ≤ 2 then y + 1 else y, m, d)

/-- `Date.prototype.toISOString` on an epoch-millisecond clock value. -/
def toISOString (t : Nat) : String :=
  let ymd := civilFromDays (t / 86400000)
  String.mk
    (pad4 ymd.1 ++ '-' ::
      (pad2 ymd.2.1 ++ '-' ::
        (pad2 ymd.2.2 ++ 'T' ::
          (pad2 (t / 3600000 % 24) ++ ':' ::
            (pad2 (t / 60000 % 60) ++ ':' ::
              (pad2 (t / 1000 % 60) ++ '.' ::
                (pad3 (t % 1000) ++ ['Z'])))))))

/-- Structural check that a string has the ISO-8601 basic timestamp shape
`YYYY-MM-DDTHH:mm:ss.sssZ` (24 characters, digits and fixed separators). -/
def isISO8601 (s : String) : Bool :=
  match s.toList with
  | [y1, y2, y3, y4, c1, m1, m2, c2, d1, d2, c3, h1, h2, c4, n1, n2, c5,
     s1, s2, c6, f1, f2, f3, c7] =>
    y1.isDigit && y2.isDigit && y3.isDigit && y4.isDigit && (c1 == '-') &&
      m1.isDigit && m2.isDigit && (c2 == '-') && d1.isDigit && d2.isDigit &&
      (c3 == 'T') && h1.isDigit && h2.isDigit && (c4 == ':') &&
      n1.isDigit && n2.isDigit && (c5 == ':') && s1.isDigit && s2.isDigit &&
      (c6 == '.') && f1.isDigit && f2.isDigit && f3.isDigit && (c7 == 'Z')
  | _ => false

/-! ## Gateway connection lifecycle as a trace semantics

`WebSocketService.handleConnection` runs synchronously inside the
Socket.IO `connection` event: the `connected` confirmation frame is emitted
before control returns to the event loop, so no Redis-listener callback can
deliver a data frame to the new socket first.  The event loop is modelled
as a sequence of atomic events processed in order. -/

/-- The `connected` confirmation frame emitted at the end of
`handleConnection`, for a connection established at clock value `t`. -/
def connectedFrame (t : Nat) : Frame :=
  { event := "connected"
    data := WsData.conn "Connected to real-time stock data stream"
      (toISOString t) }

/-- Atomic gateway events: a client connects (at clock `t`), subscribes,
unsubscribes, disconnects, or the Redis listener receives a trade. -/
inductive GwEvent where
  | connect (c : Nat) (t : Nat)
  | subscribe (c : Nat) (p : SubPayload)
  | unsubscribe (c : Nat) (p : SubPayload)
  | disconnect (c : Nat)
  | redisTrade (msg : TradeMsg)
  deriving DecidableEq

/-- State transition of the connected-clients table under one event. -/
def applyEvent (st : Conns) : GwEvent → Conns
  | .connect c _ => st ++ [(c, [])]
  | .subscribe c p => st.map (fun q => if q.1 = c then (q.1, wsSubscribe q.2 p) else q)
  | .unsubscribe c p => st.map (fun q => if q.1 = c then (q.1, wsUnsubscribe q.2 p) else q)
  | .disconnect c => st.filter (fun q => q.1 ≠ c)
  | .redisTrade _ => st

/-- Frames delivered to client `c` by one event in state `st`:
`handleConnection` emits the `connected` frame to the new socket;
`startRedisListener` delivers through `deliverTrade`. -/
def emitsTo (c : Nat) (st : Conns) : GwEvent → List Frame
  | .connect c' t => if c' = c then [connectedFrame t] else []
  | .subscribe _ _ => []
  | .unsubscribe _ _ => []
  | .disconnect _ => []
  | .redisTrade msg => ((deliverTrade st msg).filter (fun q => q.1 = c)).map (fun q => q.2)

/-- All frames delivered to client `c` over an event trace, in order. -/
def framesTo (c : Nat) : Conns → List GwEvent → List Frame
  | _, [] => []
  | st, e :: es => emitsTo c st e ++ framesTo c (applyEvent st e) es

/-! ## Bars router (`bars.routes.ts`) -/

/-- A segment of an Express route pattern: literal or `:name` parameter. -/
inductive Seg where
  | lit (s : String)
  | param (name : String)
  deriving DecidableEq

/-- Handlers registered by `createBarsRouter`, in registration order:
`/:symbol`, `/:symbol/range`, `/latest`. -/
inductive BarsHandler where
  | bySymbol
  | range
  | latest
  deriving DecidableEq

/-- The route table of `createBarsRouter` in registration order. -/
def barsRoutes : List (List Seg × BarsHandler) :=
  [([Seg.param "symbol"], BarsHandler.bySymbol),
   ([Seg.param "symbol", Seg.lit "range"], BarsHandler.range),
   ([Seg.lit "latest"], BarsHandler.latest)]

/-- Splitting a character list at `/`, accumulating the current segment in
reverse; empty segments are dropped. -/
def segsOfAux : List Char → List Char → List String
  | acc, [] => if acc.isEmpty then [] else [String.mk acc.reverse]
  | acc, ch :: rest =>
    if ch = '/' then
      if acc.isEmpty then segsOfAux [] rest
      else String.mk acc.reverse :: segsOfAux [] rest
    else segsOfAux (ch :: acc) rest

/-- Path split into non-empty segments, as Express path matching does. -/
def segsOf (path : String) : List String :=
  segsOfAux [] path.toList

/-- Full-path match of a route pattern against path segments, collecting
named parameters. -/
def matchSegs : List Seg → List String → Option (List (String × String))
  | [], [] => some []
  | Seg.lit s :: ps, x :: xs => if x = s then matchSegs ps xs else none
  | Seg.param n :: ps, x :: xs => (matchSegs ps xs).map (fun m => (n, x) :: m)
  | _, _ => none

/-- Express dispatch: the first registered route whose pattern matches the
path wins. -/
def dispatch (routes : List (List Seg × BarsHandler)) (path : String) :
    Option (BarsHandler × List (String × String)) :=
  match routes with
  | [] => none
  | (pat, h) :: rest =>
    match matchSegs pat (segsOf path) with
    | some ps => some (h, ps)
    | none => dispatch rest path

/-- Leading decimal-digit run converted to a number; `none` when the run
is empty (JavaScript `NaN`). -/
def leadingDigitsVal : List Char → Option Nat
  | cs =>
    let ds := cs.takeWhile Char.isDigit
    if ds.isEmpty then none
    else some (ds.foldl (fun a c => a * 10 + (c.toNat - '0'.toNat)) 0)

/-- JavaScript `parseInt` (radix 10) on an optional string argument:
skip leading whitespace, optional sign, then the leading digit run;
`none` models `NaN` (also produced by `parseInt(undefined)`). -/
def jsParseInt : Option String → Option Int
  | none => none
  | some s =>
    match s.toList.dropWhile Char.isWhitespace with
    | '-' :: rest => (leadingDigitsVal rest).map (fun n => -(n : Int))
    | '+' :: rest => (leadingDigitsVal rest).map (fun n => (n : Int))
    | cs => (leadingDigitsVal cs).map (fun n => (n : Int))

/-- `parseInt(req.query.limit as string) || fallback`: `NaN` and `0` are
falsy and select the fallback. -/
def limitOr (fallback : Int) (q : Option String) : Int :=
  match jsParseInt q with
  | none => fallback
  | some n => if n = 0 then fallback else n

/-- Upstream request issued by the `/:symbol` handler:
`pythonClient.get(\x7b/bars/${symbol}?limit=${limit}\x7d)` with default limit 100. -/
def bySymbolUpstream (symbol : String) (limitQ : Option String) : String :=
  "/bars/" ++ symbol ++ "?limit=" ++ toString (limitOr 100 limitQ)

/-- Upstream request issued by the dedicated `/latest` handler (default
limit 10). -/
def latestUpstream (limitQ : Option String) : String :=
  "/bars/latest?limit=" ++ toString (limitOr 10 limitQ)

/-- Error body `{success, error}` returned by the range handler. -/
structure ErrBody where
  success : Bool
  error : String
  deriving DecidableEq

/-- Outcome of the `/:symbol/range` handler: an immediate 400 response, or
a forwarded upstream request `/bars/:symbol/range` with its query
parameters (in `URLSearchParams` construction order). -/
inductive RangeOutcome where
  | badRequest (status : Nat) (body : ErrBody)
  | forwarded (path : String) (params : List (String × String))
  deriving DecidableEq

/-- Upstream requests performed by a range-handler outcome: none for the
400 response, exactly the forwarded one otherwise. -/
def upstreamCalls : RangeOutcome → List (String × List (String × String))
  | .badRequest _ _ => []
  | .forwarded p ps => [(p, ps)]

/-- The `/:symbol/range` handler of `createBarsRouter`: `if (!start || !end)`
respond 400 with `{success:false, error}`; otherwise build `URLSearchParams`
from `start`, `end` and (when truthy) `limit`, and forward to
`/bars/:symbol/range`. -/
def rangeHandler (symbol : String) (start end_ limit : Option String) :
    RangeOutcome :=
  if !truthyStr start || !truthyStr end_ then
    .badRequest 400 ⟨false, "start and end query parameters are required"⟩
  else
    .forwarded ("/bars/" ++ symbol ++ "/range")
      ([("start", start.getD ""), ("end", end_.getD "")] ++
        (if truthyStr limit then [("limit", limit.getD "")] else []))

/-! ## Redis client construction (`part_005`, `redisClient.ts`) -/

/-- TLS options passed to ioredis for `rediss://` URLs. -/
structure TlsOpts where
  rejectUnauthorized : Bool
  deriving DecidableEq

/-- How the ioredis client is constructed: from a URL (with optional TLS
options) or from a host and port. -/
inductive RedisClientInit where
  | fromUrl (url : String) (tls : Option TlsOpts)
  | fromHostPort (host : String) (port : Nat)
  deriving DecidableEq

/-- The gateway configuration values consulted by `redisClient()`. -/
structure RedisConfig where
  redisUrl : Option String
  redisHost : String
  redisPort : Nat

/-- `redisClient()` construction logic: `if (config.redisUrl)` (JavaScript
truthiness) build from the URL with
`tls: url.startsWith("rediss://") ? { rejectUnauthorized: false } : undefined`;
otherwise build from `config.redisHost` / `config.redisPort`. -/
def mkRedisClient (cfg : RedisConfig) : RedisClientInit :=
  if truthyStr cfg.redisUrl then
    let url := cfg.redisUrl.getD ""
    .fromUrl url
      (if url.startsWith "rediss://" then some ⟨false⟩ else none)
  else
    .fromHostPort cfg.redisHost cfg.redisPort

/-! ## SocketService construction (`part_007`) -/

/-- Activation state of the gateway-service `SocketService` after its
constructor ran: whether the Redis Streams bridge is live and whether the
mock realtime emitter is running. -/
structure SocketServiceState where
  bridgeActive : Bool
  mockActive : Bool
  deriving DecidableEq

/-- The `SocketService` constructor: it always calls `startBridge()` (the
bridge ends up live exactly when `bridge.start()` succeeds, which the
caller does not inspect), and starts the mock emitter iff
`process.env.MOCK_REALTIME_WS === "true"` — independently of the bridge. -/
def mkSocketService (mockRealtimeWs : Option String) (bridgeStartOk : Bool) :
    SocketServiceState :=
  { bridgeActive := bridgeStartOk
    mockActive := mockRealtimeWs == some "true" }

end StockBackend

namespace StockBackend

/-! ## Theorems for subscription handling -/

/-- Helper: `List.insert` twice is the same as once. -/
theorem insert_insert_self (l : List String) (a : String) :
    (l.insert a).insert a = l.insert a := by
  by_cases h : a ∈ l
  · simp [List.insert, h]
  · simp [List.insert, h]

/-- C6: on the per-connection room-membership set, subscribing to a ticker
twice yields the same membership state as subscribing once, and
unsubscribing from a ticker whose room was never joined leaves the state
unchanged. -/
theorem c6_subscription_idempotent (rooms : List String) (t : String) :
    wsSubscribe (wsSubscribe rooms (.str t)) (.str t) =
      wsSubscribe rooms (.str t) ∧
    (("symbol:" ++ t) ∉ rooms → wsUnsubscribe rooms (.str t) = rooms) := by
  constructor
  · exact insert_insert_self rooms ("symbol:" ++ t)
  · intro h
    simp only [wsUnsubscribe, leaveRoom, wsRoomOf]
    exact List.erase_of_not_mem h

/-- Witness for C6 at a concrete membership state and ticker. -/
theorem c6_witness :
    ("symbol:" ++ "AAPL") ∉ (["symbol:MSFT"] : List String) ∧
    wsSubscribe (wsSubscribe ["symbol:MSFT"] (.str "AAPL")) (.str "AAPL") =
      wsSubscribe ["symbol:MSFT"] (.str "AAPL") ∧
    wsUnsubscribe ["symbol:MSFT"] (.str "AAPL") = ["symbol:MSFT"] :=
  ⟨by decide, (c6_subscription_idempotent ["symbol:MSFT"] "AAPL").1,
    (c6_subscription_idempotent ["symbol:MSFT"] "AAPL").2 (by decide)⟩

/-- C2 counterexample: subscribing with the lower-case ticker `"aapl"`
joins room `"symbol:aapl"` in `WebSocketService` (and room `"aapl"` in
`SocketService`) — in neither implementation does the connection join the
upper-cased room `"symbol:AAPL"` the claim requires. -/
theorem c2_counterexample :
    wsSubscribe [] (.str "aapl") = ["symbol:aapl"] ∧
    "symbol:AAPL" ∉ wsSubscribe [] (.str "aapl") ∧
    gsSubscribe [] (.str "aapl") = ["aapl"] ∧
    "symbol:AAPL" ∉ gsSubscribe [] (.str "aapl") := by decide

/-- C2 amended: tickers are used verbatim (no upper-casing).
`WebSocketService` joins/leaves room `symbol:<t>` for a bare string
payload and does not unwrap an object payload (it is spliced by the
JavaScript object-to-string conversion); `SocketService` accepts both
payload shapes and joins/leaves the room named by the bare ticker. -/
theorem c2_subscription_rooms_verbatim (rooms : List String) (t : String) :
    wsSubscribe rooms (.str t) = joinRoom rooms ("symbol:" ++ t) ∧
    wsUnsubscribe rooms (.str t) = leaveRoom rooms ("symbol:" ++ t) ∧
    wsSubscribe rooms (.obj (some t)) =
      joinRoom rooms "symbol:[object Object]" ∧
    (t ≠ "" →
      gsSubscribe rooms (.str t) = joinRoom rooms t ∧
      gsSubscribe rooms (.obj (some t)) = joinRoom rooms t ∧
      gsUnsubscribe rooms (.str t) = leaveRoom rooms t) := by
  refine ⟨rfl, rfl, rfl, fun h => ⟨?_, ?_, ?_⟩⟩ <;>
    simp [gsSubscribe, gsUnsubscribe, gsSymbolOf, h]

/-- Witness for C2 (amended) at a concrete room set and ticker. -/
theorem c2_witness :
    wsSubscribe ["symbol:MSFT"] (.str "AAPL") =
      joinRoom ["symbol:MSFT"] ("symbol:" ++ "AAPL") ∧
    wsUnsubscribe ["symbol:MSFT"] (.str "AAPL") =
      leaveRoom ["symbol:MSFT"] ("symbol:" ++ "AAPL") ∧
    wsSubscribe ["symbol:MSFT"] (.obj (some "AAPL")) =
      joinRoom ["symbol:MSFT"] "symbol:[object Object]" ∧
    gsSubscribe ["symbol:MSFT"] (.str "AAPL") =
      joinRoom ["symbol:MSFT"] "AAPL" ∧
    gsSubscribe ["symbol:MSFT"] (.obj (some "AAPL")) =
      joinRoom ["symbol:MSFT"] "AAPL" ∧
    gsUnsubscribe ["symbol:MSFT"] (.str "AAPL") =
      leaveRoom ["symbol:MSFT"] "AAPL" := by
  obtain ⟨h1, h2, h3, h4⟩ :=
    c2_subscription_rooms_verbatim ["symbol:MSFT"] "AAPL"
  obtain ⟨h5, h6, h7⟩ := h4 (by decide)
  exact ⟨h1, h2, h3, h5, h6, h7⟩

/-! ## Theorems for the Redis-listener broadcast -/

/-- Helper: every frame delivered by `deliverTrade` carries event name
`"trade"`. -/
theorem deliverTrade_event_eq (st : Conns) (msg : TradeMsg)
    (q : Nat × Frame) (hq : q ∈ deliverTrade st msg) :
    q.2.event = "trade" := by
  unfold deliverTrade at hq
  split at hq
  · simp at hq
  · split at hq
    · simp at hq
    · rcases List.mem_append.mp hq with h' | h' <;>
        · rcases List.mem_map.mp h' with ⟨p, _, hp⟩
          rw [← hp]

/-- Helper: the target of every frame delivered by `deliverTrade` is a
connected client. -/
theorem deliverTrade_fst_mem (st : Conns) (msg : TradeMsg)
    (q : Nat × Frame) (hq : q ∈ deliverTrade st msg) :
    q.1 ∈ st.map Prod.fst := by
  unfold deliverTrade at hq
  split at hq
  · simp at hq
  · split at hq
    · simp at hq
    · rcases List.mem_append.mp hq with h' | h'
      · rcases List.mem_map.mp h' with ⟨p, hp1, hp⟩
        rw [← hp]
        exact List.mem_map.mpr ⟨p, List.mem_of_mem_filter hp1, rfl⟩
      · rcases List.mem_map.mp h' with ⟨p, hp1, hp⟩
        rw [← hp]
        exact List.mem_map.mpr ⟨p, hp1, rfl⟩

/-- C1 counterexample: client 2 is connected but subscribed only to
`MSFT`, yet the dispatch of an `AAPL` trade delivers the frame to client 2
— the source has no global-broadcast flag and broadcasts to all clients
unconditionally. -/
theorem c1_counterexample :
    "symbol:AAPL" ∉ (["symbol:MSFT"] : List String) ∧
    (2, Frame.mk "trade" (WsData.trade ⟨some "AAPL", 0⟩)) ∈
      deliverTrade [(1, ["symbol:AAPL"]), (2, ["symbol:MSFT"])]
        ⟨some "AAPL", 0⟩ := by decide

/-- C1 amended: the gateway broadcasts each trade event both to the
per-symbol room and, unconditionally, to every connected client, so every
connected client receives it regardless of subscription; in particular a
client subscribed to the ticker always receives it. -/
theorem c1_broadcast_reaches_all (st : Conns) (msg : TradeMsg) (s : String)
    (hs : msg.symbol = some s) (hne : s ≠ "") (c : Nat) (rs : List String)
    (hc : (c, rs) ∈ st) :
    (c, Frame.mk "trade" (WsData.trade msg)) ∈ deliverTrade st msg := by
  unfold deliverTrade
  simp only [hs]
  rw [if_neg hne]
  exact List.mem_append_right _ (List.mem_map.mpr ⟨(c, rs), hc, rfl⟩)

/-- Witness for C1 (amended): a connected, unsubscribed client receives
the dispatched trade. -/
theorem c1_witness :
    (5, Frame.mk "trade" (WsData.trade ⟨some "AAPL", 0⟩)) ∈
      deliverTrade [(5, [])] ⟨some "AAPL", 0⟩ :=
  c1_broadcast_reaches_all [(5, [])] ⟨some "AAPL", 0⟩ "AAPL" rfl
    (by decide) 5 [] (by decide)

/-- C3 counterexample: the `WebSocketService` Redis listener pushes a
trade payload to a connected client under event name `"trade"`, which is
neither `"trade_update"` nor `"bar_update"`. -/
theorem c3_counterexample :
    deliverTrade [(1, [])] ⟨some "AAPL", 0⟩ =
      [(1, Frame.mk "trade" (WsData.trade ⟨some "AAPL", 0⟩))] ∧
    "trade" ≠ "trade_update" ∧ "trade" ≠ "bar_update" := by decide

/-- C3 amended: the mock generator emits bar payloads as `"bar_update"`
and trade payloads as `"trade_update"`, but every data frame pushed by the
`WebSocketService` Redis listener carries event name `"trade"`. -/
theorem c3_event_names (rSym r1 r2 r3 r4 r5 rVol rSize : ℚ) (now : Nat)
    (st : Conns) (msg : TradeMsg) (q : Nat × Frame)
    (hq : q ∈ deliverTrade st msg) :
    (mockBarEmission rSym r1 r2 r3 r4 r5 rVol now).1 = "bar_update" ∧
    (mockTradeEmission rSym r1 rSize now).1 = "trade_update" ∧
    q.2.event = "trade" :=
  ⟨rfl, rfl, deliverTrade_event_eq st msg q hq⟩

/-- Witness for C3 (amended) at concrete draws and a concrete delivery. -/
theorem c3_witness :
    (mockBarEmission (1/2) (1/2) (1/2) (1/2) (1/2) (1/2) (1/2) 7).1 =
      "bar_update" ∧
    (mockTradeEmission (1/2) (1/2) (1/2) 7).1 = "trade_update" ∧
    ((1, Frame.mk "trade" (WsData.trade ⟨some "AAPL", 0⟩)) :
        Nat × Frame).2.event = "trade" :=
  c3_event_names (1/2) (1/2) (1/2) (1/2) (1/2) (1/2) (1/2) (1/2) 7
    [(1, [])] ⟨some "AAPL", 0⟩ _ (by decide)

/-! ## Theorems for SocketService construction -/

/-- C4 counterexample: with `MOCK_REALTIME_WS="true"` and a successful
bridge start, the `SocketService` constructor leaves both the mock emitter
and the Redis Streams bridge active on the same instance. -/
theorem c4_counterexample :
    (mkSocketService (some "true") true).bridgeActive = true ∧
    (mkSocketService (some "true") true).mockActive = true := by decide

/-- C4 amended: the mock emitter and the bridge are controlled
independently — the mock is active iff `MOCK_REALTIME_WS` equals
`"true"` and the bridge iff its start succeeded — so mutual exclusion
holds exactly in the states where the flag is unset or the bridge failed
to start. -/
theorem c4_mock_bridge_independent (env : Option String) (ok : Bool) :
    (mkSocketService env ok).bridgeActive = ok ∧
    ((mkSocketService env ok).mockActive = true ↔ env = some "true") ∧
    (env ≠ some "true" →
      ¬((mkSocketService env ok).bridgeActive = true ∧
        (mkSocketService env ok).mockActive = true)) := by
  refine ⟨rfl, ?_, ?_⟩
  · simp [mkSocketService]
  · intro h hcontra
    exact h (by simpa [mkSocketService] using hcontra.2)

/-- Witness for C4 (amended): with the flag unset the mock emitter is
inactive even when the bridge is live. -/
theorem c4_witness :
    (mkSocketService none true).bridgeActive = true ∧
    ((mkSocketService none true).mockActive = true ↔
      (none : Option String) = some "true") ∧
    ¬((mkSocketService none true).bridgeActive = true ∧
      (mkSocketService none true).mockActive = true) :=
  ⟨(c4_mock_bridge_independent none true).1,
    (c4_mock_bridge_independent none true).2.1,
    (c4_mock_bridge_independent none true).2.2 (by decide)⟩

/-! ## Theorems for the mock bar generator -/

/-- Helper: rounding half-up to two decimals is monotone. -/
theorem round2_mono {a b : ℚ} (h : a ≤ b) : round2 a ≤ round2 b := by
  unfold round2
  have hf : (⌊a * 100 + 1 / 2⌋ : ℤ) ≤ ⌊b * 100 + 1 / 2⌋ :=
    Int.floor_le_floor (by linarith)
  have hq : ((⌊a * 100 + 1 / 2⌋ : ℤ) : ℚ) ≤ ((⌊b * 100 + 1 / 2⌋ : ℤ) : ℚ) := by
    exact_mod_cast hf
  linarith

/-- C5: for every outcome of the random draws in `[0,1)`, the emitted mock
bar satisfies `low ≤ min(open, close)` and `max(open, close) ≤ high` even
after rounding to two decimals, and `volume ≥ 0`. -/
theorem c5_mock_bar_invariants (symbol : String)
    (r1 r2 r3 r4 r5 rVol : ℚ) (now : Nat)
    (h1 : 0 ≤ r1 ∧ r1 < 1) (h2 : 0 ≤ r2 ∧ r2 < 1) (h3 : 0 ≤ r3 ∧ r3 < 1)
    (h4 : 0 ≤ r4 ∧ r4 < 1) (h5 : 0 ≤ r5 ∧ r5 < 1)
    (hV : 0 ≤ rVol ∧ rVol < 1) :
    (createMockBar symbol r1 r2 r3 r4 r5 rVol now).low ≤
      min (createMockBar symbol r1 r2 r3 r4 r5 rVol now).open_
        (createMockBar symbol r1 r2 r3 r4 r5 rVol now).close ∧
    max (createMockBar symbol r1 r2 r3 r4 r5 rVol now).open_
        (createMockBar symbol r1 r2 r3 r4 r5 rVol now).close ≤
      (createMockBar symbol r1 r2 r3 r4 r5 rVol now).high ∧
    0 ≤ (createMockBar symbol r1 r2 r3 r4 r5 rVol now).volume := by
  simp only [createMockBar]
  set o := 150 + r1 * 10 + (r2 - 1 / 2) * 2 with ho
  set c := 150 + r1 * 10 + (r3 - 1 / 2) * 3 with hc
  have h15 : (0 : ℚ) ≤ r5 * (3 / 2) := mul_nonneg h5.1 (by norm_num)
  have h14 : (0 : ℚ) ≤ r4 * (3 / 2) := mul_nonneg h4.1 (by norm_num)
  refine ⟨le_min (round2_mono ?_) (round2_mono ?_),
    max_le (round2_mono ?_) (round2_mono ?_), ?_⟩
  · exact le_trans (sub_le_self _ h15) (min_le_left o c)
  · exact le_trans (sub_le_self _ h15) (min_le_right o c)
  · exact le_trans (le_max_left o c) (le_add_of_nonneg_right h14)
  · exact le_trans (le_max_right o c) (le_add_of_nonneg_right h14)
  · have hfl : (0 : ℤ) ≤ ⌊rVol * 1500000⌋ :=
      Int.floor_nonneg.mpr (mul_nonneg hV.1 (by norm_num))
    linarith

/-- Witness for C5 with every draw equal to 1/2. -/
theorem c5_witness :
    ((0 : ℚ) ≤ 1 / 2 ∧ (1 / 2 : ℚ) < 1) ∧
    ((createMockBar "aapl" (1/2) (1/2) (1/2) (1/2) (1/2) (1/2) 7).low ≤
      min (createMockBar "aapl" (1/2) (1/2) (1/2) (1/2) (1/2) (1/2) 7).open_
        (createMockBar "aapl" (1/2) (1/2) (1/2) (1/2) (1/2) (1/2) 7).close ∧
    max (createMockBar "aapl" (1/2) (1/2) (1/2) (1/2) (1/2) (1/2) 7).open_
        (createMockBar "aapl" (1/2) (1/2) (1/2) (1/2) (1/2) (1/2) 7).close ≤
      (createMockBar "aapl" (1/2) (1/2) (1/2) (1/2) (1/2) (1/2) 7).high ∧
    0 ≤ (createMockBar "aapl" (1/2) (1/2) (1/2) (1/2) (1/2) (1/2) 7).volume) :=
  ⟨⟨by norm_num, by norm_num⟩,
    c5_mock_bar_invariants "aapl" (1/2) (1/2) (1/2) (1/2) (1/2) (1/2) 7
      ⟨by norm_num, by norm_num⟩ ⟨by norm_num, by norm_num⟩
      ⟨by norm_num, by norm_num⟩ ⟨by norm_num, by norm_num⟩
      ⟨by norm_num, by norm_num⟩ ⟨by norm_num, by norm_num⟩⟩

/-! ## Theorems for the bars range endpoint -/

/-- C7 counterexample: with `start` present but equal to the empty string
(`GET /api/bars/AAPL/range?start=&end=2024-01-02`), both parameters are
present yet the handler returns 400 and performs no upstream request,
refuting the claim's `both present → forwarded` direction. -/
theorem c7_counterexample :
    (some "" : Option String) ≠ none ∧
    (some "2024-01-02" : Option String) ≠ none ∧
    rangeHandler "AAPL" (some "") (some "2024-01-02") none =
      RangeOutcome.badRequest 400
        ⟨false, "start and end query parameters are required"⟩ ∧
    upstreamCalls (rangeHandler "AAPL" (some "") (some "2024-01-02") none) =
      [] := by
  refine ⟨by simp, by simp, by decide, by decide⟩

/-- C7 amended: when `start` or `end` is missing or empty the handler
returns 400 with `{success:false, error}` and performs no upstream
request; when both are present and non-empty the request is forwarded to
the upstream `/bars/:symbol/range` endpoint with the `start`, `end` and
(when present and non-empty) `limit` parameters. -/
theorem c7_range_endpoint (symbol : String)
    (start end_ limit : Option String) :
    (truthyStr start = false ∨ truthyStr end_ = false →
      rangeHandler symbol start end_ limit =
        RangeOutcome.badRequest 400
          ⟨false, "start and end query parameters are required"⟩ ∧
      upstreamCalls (rangeHandler symbol start end_ limit) = []) ∧
    (truthyStr start = true → truthyStr end_ = true →
      rangeHandler symbol start end_ limit =
        RangeOutcome.forwarded ("/bars/" ++ symbol ++ "/range")
          ([("start", start.getD ""), ("end", end_.getD "")] ++
            (if truthyStr limit then [("limit", limit.getD "")] else []))) := by
  constructor
  · intro h
    have heq : rangeHandler symbol start end_ limit =
        RangeOutcome.badRequest 400
          ⟨false, "start and end query parameters are required"⟩ := by
      unfold rangeHandler
      rw [if_pos (by rcases h with h | h <;> simp [h])]
    exact ⟨heq, by rw [heq]; rfl⟩
  · intro h1 h2
    unfold rangeHandler
    rw [if_neg (by simp [h1, h2])]

/-- Witness for C7 (amended): a missing `start` yields 400 with no
upstream call; present non-empty parameters are forwarded. -/
theorem c7_witness :
    rangeHandler "AAPL" none (some "2024-01-02") none =
      RangeOutcome.badRequest 400
        ⟨false, "start and end query parameters are required"⟩ ∧
    upstreamCalls (rangeHandler "AAPL" none (some "2024-01-02") none) = [] ∧
    rangeHandler "AAPL" (some "2024-01-01") (some "2024-01-02") (some "5") =
      RangeOutcome.forwarded "/bars/AAPL/range"
        [("start", "2024-01-01"), ("end", "2024-01-02"), ("limit", "5")] := by
  obtain ⟨hbad, hup⟩ :=
    (c7_range_endpoint "AAPL" none (some "2024-01-02") none).1 (Or.inl rfl)
  refine ⟨hbad, hup, ?_⟩
  have h := (c7_range_endpoint "AAPL" (some "2024-01-01") (some "2024-01-02")
    (some "5")).2 (by decide) (by decide)
  exact h.trans (by decide)

/-! ## Theorems for the Redis client configuration -/

/-- C9: when the Redis URL configuration value is set (a non-empty
string), the client is constructed from that URL — the host/port settings
are ignored — with TLS options present iff the URL scheme is `rediss://`;
when the URL is not set, the client is constructed from the configured
host and port. -/
theorem c9_redis_url_precedence (cfg : RedisConfig) :
    (∀ url : String, cfg.redisUrl = some url → url ≠ "" →
      mkRedisClient cfg = RedisClientInit.fromUrl url
        (if url.startsWith "rediss://" then some ⟨false⟩ else none) ∧
      ((if url.startsWith "rediss://" then (some (⟨false⟩ : TlsOpts))
          else none).isSome = true ↔
        url.startsWith "rediss://" = true) ∧
      (∀ (host : String) (port : Nat),
        mkRedisClient ⟨some url, host, port⟩ = mkRedisClient cfg)) ∧
    (cfg.redisUrl = none →
      mkRedisClient cfg =
        RedisClientInit.fromHostPort cfg.redisHost cfg.redisPort) := by
  constructor
  · intro url hu hne
    refine ⟨?_, ?_, ?_⟩
    · simp [mkRedisClient, truthyStr, hu, hne]
    · cases h : url.startsWith "rediss://" <;> simp
    · intro host port
      simp [mkRedisClient, truthyStr, hu, hne]
  · intro hu
    simp [mkRedisClient, truthyStr, hu]

/-- Witness for C9 at a concrete `rediss://` URL and a concrete
URL-less configuration. -/
theorem c9_witness :
    mkRedisClient ⟨some "rediss://db.example", "localhost", 6379⟩ =
      RedisClientInit.fromUrl "rediss://db.example"
        (if ("rediss://db.example").startsWith "rediss://" then some ⟨false⟩
          else none) ∧
    mkRedisClient ⟨none, "localhost", 6379⟩ =
      RedisClientInit.fromHostPort "localhost" 6379 :=
  ⟨((c9_redis_url_precedence ⟨some "rediss://db.example", "localhost",
        6379⟩).1 "rediss://db.example" rfl (by decide)).1,
    (c9_redis_url_precedence ⟨none, "localhost", 6379⟩).2 rfl⟩

/-! ## Theorems for bars route registration order -/

/-- C10: because `/:symbol` is registered before `/latest`, the path
`/latest` is dispatched to the `/:symbol` handler with `symbol = "latest"`;
without a `limit` query parameter the upstream request is
`/bars/latest?limit=100` (the dedicated handler would have used default
limit 10); and no path whatsoever dispatches to the dedicated `/latest`
handler. -/
theorem c10_latest_route_shadowed :
    dispatch barsRoutes "/latest" =
      some (BarsHandler.bySymbol, [("symbol", "latest")]) ∧
    bySymbolUpstream "latest" none = "/bars/latest?limit=100" ∧
    latestUpstream none = "/bars/latest?limit=10" ∧
    ∀ (path : String) (r : BarsHandler × List (String × String)),
      dispatch barsRoutes path = some r → r.1 ≠ BarsHandler.latest := by
  refine ⟨by decide, by decide, by decide, ?_⟩
  intro path r h
  rcases hs : segsOf path with _ | ⟨x, _ | ⟨y, ys⟩⟩
  · simp [dispatch, barsRoutes, matchSegs, hs] at h
  · simp [dispatch, barsRoutes, matchSegs, hs] at h
    rw [← h]
    simp
  · by_cases hy : y = "range"
    · rcases ys with _ | ⟨z, zs⟩
      · simp [dispatch, barsRoutes, matchSegs, hs, hy] at h
        rw [← h]
        simp
      · simp [dispatch, barsRoutes, matchSegs, hs, hy] at h
    · simp [dispatch, barsRoutes, matchSegs, hs, hy] at h

/-- Witness for C10: the concrete dispatch of `/latest` goes to the
`/:symbol` handler, not the dedicated one. -/
theorem c10_witness :
    (BarsHandler.bySymbol, [("symbol", "latest")]).1 ≠ BarsHandler.latest :=
  c10_latest_route_shadowed.2.2.2 "/latest"
    (BarsHandler.bySymbol, [("symbol", "latest")]) (by decide)

/-! ## Theorems for the connection handshake -/

/-- Helper: the decimal digit character of `n % 10` is a digit. -/
theorem digitChar_mod_isDigit (n : Nat) :
    (Nat.digitChar (n % 10)).isDigit = true := by
  have h : n % 10 < 10 := Nat.mod_lt _ (by norm_num)
  set k := n % 10 with hk
  interval_cases k <;> rfl

/-- Helper: the rendered timestamp always has the ISO-8601 shape
`YYYY-MM-DDTHH:mm:ss.sssZ`. -/
theorem isISO8601_toISOString (t : Nat) :
    isISO8601 (toISOString t) = true := by
  unfold toISOString isISO8601 pad4 pad3 pad2
  simp [String.toList, digitChar_mod_isDigit]

/-- Helper: a client that is not connected and is not the subject of a
`connect` event receives no frame from that event. -/
theorem emitsTo_eq_nil (c : Nat) (st : Conns) (e : GwEvent)
    (hc : c ∉ st.map Prod.fst) (he : ∀ t, e ≠ GwEvent.connect c t) :
    emitsTo c st e = [] := by
  cases e with
  | connect c' t =>
    have hne : c' ≠ c := fun h => (he t) (by rw [h])
    simp [emitsTo, hne]
  | subscribe c' p => rfl
  | unsubscribe c' p => rfl
  | disconnect c' => rfl
  | redisTrade msg =>
    simp only [emitsTo]
    rw [List.filter_eq_nil_iff.mpr, List.map_nil]
    intro q hq
    simp only [decide_eq_true_eq]
    intro hqc
    exact hc (hqc ▸ deliverTrade_fst_mem st msg q hq)

/-- Helper: events other than a `connect` for `c` never add `c` to the
connected-clients table. -/
theorem applyEvent_keys (c : Nat) (st : Conns) (e : GwEvent)
    (hc : c ∉ st.map Prod.fst) (he : ∀ t, e ≠ GwEvent.connect c t) :
    c ∉ (applyEvent st e).map Prod.fst := by
  cases e with
  | connect c' t =>
    have hne : c' ≠ c := fun h => (he t) (by rw [h])
    intro hmem
    simp only [applyEvent, List.map_append, List.mem_append] at hmem
    rcases hmem with h | h
    · exact hc h
    · simp at h
      exact hne h.symm
  | subscribe c' p =>
    intro hmem
    apply hc
    simp only [applyEvent, List.map_map] at hmem
    convert hmem using 2
    funext q
    by_cases h : q.1 = c' <;> simp [Function.comp, h]
  | unsubscribe c' p =>
    intro hmem
    apply hc
    simp only [applyEvent, List.map_map] at hmem
    convert hmem using 2
    funext q
    by_cases h : q.1 = c' <;> simp [Function.comp, h]
  | disconnect c' =>
    intro hmem
    rcases List.mem_map.mp hmem with ⟨q, hq, rfl⟩
    exact hc (List.mem_map.mpr ⟨q, List.mem_of_mem_filter hq, rfl⟩)
  | redisTrade msg => exact hc

/-- Helper: the first frame a fresh client receives over any trace is the
`connected` confirmation frame of its `connect` event. -/
theorem framesTo_connect_head (c t : Nat) (post : List GwEvent) :
    ∀ (pre : List GwEvent) (st : Conns), c ∉ st.map Prod.fst →
      (∀ t', GwEvent.connect c t' ∉ pre) →
      ∃ rest, framesTo c st (pre ++ GwEvent.connect c t :: post) =
        connectedFrame t :: rest := by
  intro pre
  induction pre with
  | nil =>
    intro st _ _
    exact ⟨framesTo c (applyEvent st (GwEvent.connect c t)) post,
      by simp [framesTo, emitsTo]⟩
  | cons e pre ih =>
    intro st hc hpre
    have he : ∀ t', e ≠ GwEvent.connect c t' := by
      intro t' heq
      exact hpre t' (by rw [heq]; exact List.mem_cons_self _ _)
    obtain ⟨rest, hr⟩ := ih (applyEvent st e) (applyEvent_keys c st e hc he)
      (fun t' ht' => hpre t' (List.mem_cons_of_mem _ ht'))
    refine ⟨rest, ?_⟩
    rw [List.cons_append]
    show emitsTo c st e ++
        framesTo c (applyEvent st e) (pre ++ GwEvent.connect c t :: post) =
      connectedFrame t :: rest
    rw [emitsTo_eq_nil c st e hc he, List.nil_append]
    exact hr

/-- C8: on every new client connection the gateway delivers, before any
data frame, a `connected` frame whose payload carries the fixed message
string and the ISO-8601 rendering of the connection-time clock. -/
theorem c8_connected_handshake (pre post : List GwEvent) (c t : Nat)
    (hpre : ∀ t', GwEvent.connect c t' ∉ pre) :
    (∃ rest, framesTo c [] (pre ++ GwEvent.connect c t :: post) =
      { event := "connected"
        data := WsData.conn "Connected to real-time stock data stream"
          (toISOString t) } :: rest) ∧
    isISO8601 (toISOString t) = true :=
  ⟨framesTo_connect_head c t post pre [] (by simp) hpre,
    isISO8601_toISOString t⟩

/-- Witness for C8 at a concrete connection time on the singleton trace. -/
theorem c8_witness :
    (∃ rest, framesTo 0 [] ([] ++ GwEvent.connect 0 1736937000000 :: []) =
      { event := "connected"
        data := WsData.conn "Connected to real-time stock data stream"
          (toISOString 1736937000000) } :: rest) ∧
    isISO8601 (toISOString 1736937000000) = true :=
  c8_connected_handshake [] [] 0 1736937000000 (fun t' h => by simp at h)

end StockBackend
